import Mathlib

/-!
Verification of slink's connection-configuration and command-construction
layer (src/conn.rs), shallowly embedded in Lean.

The embedding mirrors conn.rs. Rust strings are Lean Strings; fallible
I/O calls made during an operation are injected as explicit outcome
parameters (an Except Nat Unit per call, error codes as Nat); a Rust
panic (unwrap / expect) is modelled by an Option-valued function
returning none; the persisted host slot (the XDG config file named
"hostname") is an Option String holding the file's exact contents, none
when the entry is absent. Following the spec's design note, the XDG base
directories are passed in as explicit configuration values (cacheDir),
and place_cache_file's own fallibility is injected as a Bool.
The process module and the dispatch layer (main.rs) are not under src;
the few definitions depending on them are modelled from the spec and say
so in their doc comments.
-/

/-- Unicode code points with the White_Space property: the set recognised
by Rust's char::is_whitespace, which str::trim strips in get_host. -/
def rustWhitespaceCodes : List Nat :=
  [0x9, 0xA, 0xB, 0xC, 0xD, 0x20, 0x85, 0xA0, 0x1680,
   0x2000, 0x2001, 0x2002, 0x2003, 0x2004, 0x2005, 0x2006, 0x2007,
   0x2008, 0x2009, 0x200A, 0x2028, 0x2029, 0x202F, 0x205F, 0x3000]

/-- Rust char::is_whitespace. -/
def rustIsWhitespace (c : Char) : Bool := rustWhitespaceCodes.contains c.toNat

/-- Rust str::trim on the underlying character list: drop whitespace from
the front, then drop whitespace from the back. -/
def rustTrimData (l : List Char) : List Char :=
  ((l.dropWhile rustIsWhitespace).reverse.dropWhile rustIsWhitespace).reverse

/-- Rust str::trim. -/
def rustTrim (s : String) : String := String.mk (rustTrimData s.data)

/-- Digit accumulation of Rust's str::parse::<i32> after the optional
sign: every remaining character must be an ASCII digit. -/
def digitsToNatAux (acc : Nat) : List Char → Option Nat
  | [] => some acc
  | c :: rest =>
    if c.isDigit then digitsToNatAux (10 * acc + (c.toNat - 48)) rest
    else none

/-- Rust str::parse::<i32>: optional single + or - sign, at least one
digit, all characters digits, and the value within the i32 range. -/
def parse_i32 (s : String) : Option Int :=
  match s.data with
  | [] => none
  | '+' :: rest =>
    if rest.isEmpty then none
    else
      match digitsToNatAux 0 rest with
      | none => none
      | some n => if n ≤ 2147483647 then some (n : Int) else none
  | '-' :: rest =>
    if rest.isEmpty then none
    else
      match digitsToNatAux 0 rest with
      | none => none
      | some n => if n ≤ 2147483648 then some (-(n : Int)) else none
  | l =>
    match digitsToNatAux 0 l with
    | none => none
    | some n => if n ≤ 2147483647 then some (n : Int) else none

/-- conn.rs's Error enum. The io::Error causes and the opaque
process::Error cause are modelled as numeric codes. -/
inductive Error where
  | NoConfigFile : Error
  | FailedConfigWrite : Nat → Error
  | FailedConfigRead : Nat → Error
  | ProcessError : Nat → Error
  deriving DecidableEq

/-- The (program, argument vector) pair this layer hands to the
process-execution primitive: the std::process::Command contents as built
by the closures in conn.rs. -/
structure Command where
  program : String
  argv : List String
  deriving DecidableEq

/-- Contents of the persisted host slot (the config file "hostname"):
none when the entry is absent. -/
abbrev HostFile := Option String

/-- Modelled from the spec: the process-execution primitive (process.rs
is not under src). It receives the built Command and either succeeds or
fails with an opaque cause. -/
abbrev Exec := Command → Except Nat Unit

/-- conn.rs set_host. place_config_file(...).expect(...) panics when the
storage location cannot be created (placeOk = false, result none);
otherwise File::create and then write run, each mapped to
FailedConfigWrite on failure; on success the slot holds the host
followed by a newline. createRes and writeRes inject the outcomes of the
two fallible I/O calls; the returned pair is (result, new slot state). -/
def set_host (host : String) (placeOk : Bool)
    (createRes writeRes : Except Nat Unit) (fs : HostFile) :
    Option (Except Error Unit × HostFile) :=
  if placeOk then
    match createRes with
    | Except.error e => some (Except.error (Error.FailedConfigWrite e), fs)
    | Except.ok _ =>
      match writeRes with
      | Except.error e => some (Except.error (Error.FailedConfigWrite e), some "")
      | Except.ok _ => some (Except.ok (), some (host ++ "\n"))
  else none

/-- conn.rs get_host. find_config_file yields NoConfigFile when the
entry is absent; otherwise File::open and read_to_string run, each
mapped to FailedConfigRead on failure; on success the contents are
returned trimmed. openRes and readRes inject the two I/O outcomes. -/
def get_host (openRes readRes : Except Nat Unit) (fs : HostFile) :
    Except Error String :=
  match fs with
  | none => Except.error Error.NoConfigFile
  | some content =>
    match openRes with
    | Except.error e => Except.error (Error.FailedConfigRead e)
    | Except.ok _ =>
      match readRes with
      | Except.error e => Except.error (Error.FailedConfigRead e)
      | Except.ok _ => Except.ok (rustTrim content)

/-- The control-socket file name conn.rs formats for a host. -/
def sock_filename (host : String) : String := "conn-" ++ host ++ ".sock"

/-- The path place_cache_file returns on success for a file name: the
slink cache directory joined with the name. -/
def cache_file_path (cacheDir filename : String) : String :=
  cacheDir ++ "/" ++ filename

/-- xdg's place_cache_file: creates the cache location and returns the
path, or fails; placeCacheOk injects that outcome. -/
def place_cache_file (cacheDir : String) (placeCacheOk : Bool)
    (filename : String) : Option String :=
  if placeCacheOk then some (cache_file_path cacheDir filename) else none

/-- The per-host control-socket path conn.rs derives. -/
def sock_path (cacheDir host : String) : String :=
  cache_file_path cacheDir (sock_filename host)

/-- The three option strings ssh_opts pushes for a host, in order. -/
def ssh_opts_list (cacheDir host : String) : List String :=
  ["-oControlMaster=auto",
   "-oControlPath=" ++ sock_path cacheDir host,
   "-oControlPersist=10m"]

/-- conn.rs ssh_opts. place_cache_file(...).expect(...) panics (none)
when the socket path cannot be placed; otherwise the three fixed options
in order. -/
def ssh_opts (cacheDir : String) (placeCacheOk : Bool) (host : String) :
    Option (List String) :=
  match place_cache_file cacheDir placeCacheOk (sock_filename host) with
  | none => none
  | some sockStr =>
    some ["-oControlMaster=auto",
          "-oControlPath=" ++ sockStr,
          "-oControlPersist=10m"]

/-- The loop of conn.rs port_forward (lines 45-52): parse each port
(unwrap panics on failure, modelled by none), record whether any parsed
value is below 1024, and push the two arguments "-L" and
"<port>:127.0.0.1:<port>" for each port. Returns (has_low_port,
port_forwards). -/
def build_forwards : List String → Option (Bool × List String)
  | [] => some (false, [])
  | p :: rest =>
    match parse_i32 p with
    | none => none
    | some n =>
      match build_forwards rest with
      | none => none
      | some (low, fwds) =>
        some (decide (n < 1024) || low,
              "-L" :: (p ++ ":127.0.0.1:" ++ p) :: fwds)

/-- The Command conn.rs port_forward builds once the host is known:
program is sudo when some port is below 1024 (with ssh re-invoked as the
first argument), ssh otherwise; then the base options, -N, the forward
arguments, and the host. -/
def port_forward_cmd (cacheDir : String) (placeCacheOk : Bool)
    (host : String) (ports : List String) : Option Command :=
  match build_forwards ports with
  | none => none
  | some (low, fwds) =>
    match ssh_opts cacheDir placeCacheOk host with
    | none => none
    | some opts =>
      some { program := if low then "sudo" else "ssh",
             argv := (if low then ["ssh"] else []) ++
                     opts ++ ["-N"] ++ fwds ++ [host] }

/-- conn.rs port_forward end to end: resolve the host (returning a
config error as-is), build the command (none models the unwrap/expect
panics), run it, wrapping an execution failure as ProcessError. -/
def port_forward (openRes readRes : Except Nat Unit) (cacheDir : String)
    (placeCacheOk : Bool) (fs : HostFile) (ports : List String)
    (exec : Exec) : Option (Except Error Unit) :=
  match get_host openRes readRes fs with
  | Except.error e => some (Except.error e)
  | Except.ok host =>
    match port_forward_cmd cacheDir placeCacheOk host ports with
    | none => none
    | some cmd => some ((exec cmd).mapError Error.ProcessError)

/-- The Command conn.rs ssh_command_with_host builds: program ssh, then
the base options, -t when stdout is an interactive terminal, -q, the
host, and finally whatever arguments the call-site closure appends
(extra). -/
def ssh_command_with_host_cmd (cacheDir : String)
    (placeCacheOk isattyStdout : Bool) (host : String)
    (extra : List String) : Option Command :=
  match ssh_opts cacheDir placeCacheOk host with
  | none => none
  | some opts =>
    some { program := "ssh",
           argv := opts ++ (if isattyStdout then ["-t"] else []) ++
                   ["-q"] ++ [host] ++ extra }

/-- conn.rs ssh_command_with_host end to end: build then run, wrapping
an execution failure as ProcessError. -/
def ssh_command_with_host (cacheDir : String)
    (placeCacheOk isattyStdout : Bool) (host : String)
    (extra : List String) (exec : Exec) : Option (Except Error Unit) :=
  match ssh_command_with_host_cmd cacheDir placeCacheOk isattyStdout host extra with
  | none => none
  | some cmd => some ((exec cmd).mapError Error.ProcessError)

/-- conn.rs ssh_command: resolve the host, then ssh_command_with_host. -/
def ssh_command (openRes readRes : Except Nat Unit) (cacheDir : String)
    (placeCacheOk isattyStdout : Bool) (fs : HostFile)
    (extra : List String) (exec : Exec) : Option (Except Error Unit) :=
  match get_host openRes readRes fs with
  | Except.error e => some (Except.error e)
  | Except.ok host =>
    ssh_command_with_host cacheDir placeCacheOk isattyStdout host extra exec

/-- The Command conn.rs scp builds: program scp, the base options, then
the closure-appended arguments. -/
def scp_cmd (cacheDir : String) (placeCacheOk : Bool) (host : String)
    (extra : List String) : Option Command :=
  match ssh_opts cacheDir placeCacheOk host with
  | none => none
  | some opts => some { program := "scp", argv := opts ++ extra }

/-- conn.rs scp_up's closure: the local path, then host:remotepath. -/
def scp_up_cmd (cacheDir : String) (placeCacheOk : Bool)
    (host fromPath toPath : String) : Option Command :=
  scp_cmd cacheDir placeCacheOk host [fromPath, host ++ ":" ++ toPath]

/-- conn.rs scp_down's closure: host:remotepath, then the local path. -/
def scp_down_cmd (cacheDir : String) (placeCacheOk : Bool)
    (host fromPath toPath : String) : Option Command :=
  scp_cmd cacheDir placeCacheOk host [host ++ ":" ++ fromPath, toPath]

/-- conn.rs scp_up end to end. -/
def scp_up (openRes readRes : Except Nat Unit) (cacheDir : String)
    (placeCacheOk : Bool) (fs : HostFile) (fromPath toPath : String)
    (exec : Exec) : Option (Except Error Unit) :=
  match get_host openRes readRes fs with
  | Except.error e => some (Except.error e)
  | Except.ok host =>
    match scp_up_cmd cacheDir placeCacheOk host fromPath toPath with
    | none => none
    | some cmd => some ((exec cmd).mapError Error.ProcessError)

/-- conn.rs scp_down end to end. -/
def scp_down (openRes readRes : Except Nat Unit) (cacheDir : String)
    (placeCacheOk : Bool) (fs : HostFile) (fromPath toPath : String)
    (exec : Exec) : Option (Except Error Unit) :=
  match get_host openRes readRes fs with
  | Except.error e => some (Except.error e)
  | Except.ok host =>
    match scp_down_cmd cacheDir placeCacheOk host fromPath toPath with
    | none => none
    | some cmd => some ((exec cmd).mapError Error.ProcessError)

/-- Modelled from the spec: the dispatch layer (main.rs is not under
src) invokes the interactive session ("go") through ssh_command with a
closure that appends nothing. -/
def go_cmd (cacheDir : String) (placeCacheOk isattyStdout : Bool)
    (host : String) : Option Command :=
  ssh_command_with_host_cmd cacheDir placeCacheOk isattyStdout host []

/-- Modelled from the spec: the dispatch layer appends the user-supplied
command string as the final argument for remote command execution. -/
def remote_command_cmd (cacheDir : String) (placeCacheOk isattyStdout : Bool)
    (host command : String) : Option Command :=
  ssh_command_with_host_cmd cacheDir placeCacheOk isattyStdout host [command]

/-- Whether a port string parses to a value below 1024 (a privileged
port, in the sense of port_forward's check). -/
def lowPort (p : String) : Bool :=
  match parse_i32 p with
  | some n => decide (n < 1024)
  | none => false

/-- The flattened forward arguments for a port list: "-L" then
port:127.0.0.1:port, for each port in order. -/
def fwd_specs (ports : List String) : List String :=
  ports.flatMap (fun p => ["-L", p ++ ":127.0.0.1:" ++ p])

/-- Trimming is unaffected by one trailing whitespace character. -/
theorem rustTrimData_append_ws (l : List Char) (c : Char)
    (hc : rustIsWhitespace c = true) :
    rustTrimData (l ++ [c]) = rustTrimData l := by
  unfold rustTrimData
  rw [List.dropWhile_append]
  by_cases h : (List.dropWhile rustIsWhitespace l).isEmpty = true
  · simp only [h, if_pos]
    rw [List.isEmpty_iff] at h
    simp [h, List.dropWhile_cons, hc]
  · simp only [h, if_neg, Bool.false_eq_true, not_false_iff]
    rw [List.reverse_append]
    simp [List.dropWhile_cons, hc]

/-- Trimming ignores the newline set_host appends. -/
theorem rustTrim_append_newline (s : String) :
    rustTrim (s ++ "\n") = rustTrim s := by
  unfold rustTrim
  have hd : (s ++ "\n").data = s.data ++ ['\n'] := by
    rw [String.data_append]
  rw [hd, rustTrimData_append_ws s.data '\n' (by decide)]

/-- Claim C1: for every non-empty host string h without embedded path
separators, a successful set_host h followed by get_host (with no
intervening set_host and no read failure) returns exactly h after
whitespace trim-normalization. -/
theorem setHost_getHost_roundtrip (h : String) (placeOk : Bool)
    (createRes writeRes : Except Nat Unit) (fs fs2 : HostFile)
    (hne : h ≠ "") (hsep : '/' ∉ h.data)
    (hset : set_host h placeOk createRes writeRes fs =
      some (Except.ok (), fs2)) :
    get_host (Except.ok ()) (Except.ok ()) fs2 = Except.ok (rustTrim h) := by
  unfold set_host at hset
  split at hset
  · split at hset
    · simp at hset
    · split at hset
      · simp at hset
      · simp only [Option.some.injEq, Prod.mk.injEq, true_and] at hset
        subst hset
        simp [get_host, rustTrim_append_newline]
  · simp at hset

/-- Witness for C1 at host example.com on a fresh store. -/
theorem setHost_getHost_roundtrip_witness :
    ("example.com" : String) ≠ "" ∧ '/' ∉ ("example.com" : String).data ∧
    set_host "example.com" true (Except.ok ()) (Except.ok ()) none =
      some (Except.ok (), some ("example.com" ++ "\n")) ∧
    get_host (Except.ok ()) (Except.ok ()) (some ("example.com" ++ "\n")) =
      Except.ok (rustTrim "example.com") :=
  ⟨by decide, by decide, rfl,
   setHost_getHost_roundtrip "example.com" true (Except.ok ()) (Except.ok ())
     none (some ("example.com" ++ "\n")) (by decide) (by decide) rfl⟩

/-- Claim C7: on a fresh store (entry absent), get_host returns the
NoConfigFile error (the spec's NoHostConfigured), whatever the injected
I/O outcomes, and that error is distinct from every FailedConfigRead
(the generic read error of an existing entry). -/
theorem getHost_fresh_store_no_config (openRes readRes : Except Nat Unit) :
    get_host openRes readRes none = Except.error Error.NoConfigFile ∧
    (∀ e, Error.NoConfigFile ≠ Error.FailedConfigRead e) :=
  ⟨rfl, fun e h => Error.noConfusion h⟩

/-- Counterexample to claim C9 as stated: when the storage location
cannot be created (place_config_file fails), set_host terminates
abnormally (the expect panic, modelled by none) instead of returning a
FailedConfigWrite error value. -/
theorem setHost_place_failure_panics :
    set_host "example.com" false (Except.ok ()) (Except.ok ()) none =
      none := rfl

/-- Claim C9 as amended: once the storage location is in place, set_host
always returns a value (never panics), every error value it returns is a
FailedConfigWrite, and a failing create or a failing write each produce
exactly that error; but when the storage location itself cannot be
created, set_host panics instead of returning an error. -/
theorem setHost_error_kinds (host : String)
    (createRes writeRes : Except Nat Unit) (fs : HostFile) :
    (∃ r, set_host host true createRes writeRes fs = some r) ∧
    (∀ r e, set_host host true createRes writeRes fs = some r →
      r.1 = Except.error e → ∃ k, e = Error.FailedConfigWrite k) ∧
    (∀ k, createRes = Except.error k →
      set_host host true createRes writeRes fs =
        some (Except.error (Error.FailedConfigWrite k), fs)) ∧
    (∀ k, createRes = Except.ok () → writeRes = Except.error k →
      set_host host true createRes writeRes fs =
        some (Except.error (Error.FailedConfigWrite k), some "")) ∧
    set_host host false createRes writeRes fs = none := by
  refine ⟨?_, ?_, ?_, ?_, rfl⟩
  · unfold set_host
    match createRes with
    | Except.error e => exact ⟨_, rfl⟩
    | Except.ok _ =>
      match writeRes with
      | Except.error e => exact ⟨_, rfl⟩
      | Except.ok _ => exact ⟨_, rfl⟩
  · intro r e hr he
    unfold set_host at hr
    match createRes with
    | Except.error k =>
      simp at hr
      rw [← hr] at he
      simp at he
      exact ⟨k, he.symm⟩
    | Except.ok _ =>
      match writeRes with
      | Except.error k =>
        simp at hr
        rw [← hr] at he
        simp at he
        exact ⟨k, he.symm⟩
      | Except.ok _ =>
        simp at hr
        rw [← hr] at he
        simp at he
  · intro k hk
    subst hk
    rfl
  · intro k hc hw
    subst hc
    subst hw
    rfl

/-- Witness for C9's amended theorem: a failing create call yields the
FailedConfigWrite error with the underlying cause. -/
theorem setHost_error_kinds_witness :
    set_host "example.com" true (Except.error 7) (Except.ok ()) none =
      some (Except.error (Error.FailedConfigWrite 7), none) :=
  (setHost_error_kinds "example.com" (Except.error 7)
    (Except.ok ()) none).2.2.1 7 rfl

/-- When every port parses, the port_forward loop yields the flattened
forward arguments and flags exactly the ports parsing below 1024. -/
theorem build_forwards_eq (ports : List String)
    (h : ∀ p ∈ ports, (parse_i32 p).isSome) :
    build_forwards ports = some (ports.any lowPort, fwd_specs ports) := by
  induction ports with
  | nil => rfl
  | cons p rest ih =>
    have hp : (parse_i32 p).isSome := h p (by simp)
    obtain ⟨n, hn⟩ := Option.isSome_iff_exists.mp hp
    have hrest := ih (fun q hq => h q (by simp [hq]))
    simp [build_forwards, hn, hrest, fwd_specs, lowPort]

/-- A port string parses below 1024 exactly when lowPort says so. -/
theorem lowPort_iff (p : String) :
    lowPort p = true ↔ ∃ n : Int, parse_i32 p = some n ∧ n < 1024 := by
  unfold lowPort
  match hp : parse_i32 p with
  | none => simp
  | some m => simp [hp]

/-- Claim C2: for a list of requested ports that all parse, the built
invocation uses sudo as the program, with ssh as its first argument,
exactly when some port parses below 1024 (the decision is global to the
batch); in all cases the remaining arguments are the base options, then
-N, then all forward argument pairs, then the host. -/
theorem port_forward_elevation (cacheDir host : String)
    (ports : List String) (hne : ports ≠ [])
    (hparse : ∀ p ∈ ports, (parse_i32 p).isSome) :
    port_forward_cmd cacheDir true host ports =
      some { program := if ports.any lowPort then "sudo" else "ssh",
             argv := (if ports.any lowPort then ["ssh"] else []) ++
                     ssh_opts_list cacheDir host ++ ["-N"] ++
                     fwd_specs ports ++ [host] } ∧
    (ports.any lowPort = true ↔
      ∃ p ∈ ports, ∃ n : Int, parse_i32 p = some n ∧ n < 1024) := by
  constructor
  · simp [port_forward_cmd, build_forwards_eq ports hparse, ssh_opts,
      place_cache_file, ssh_opts_list, sock_path]
  · rw [List.any_eq_true]
    constructor
    · rintro ⟨p, hp, hlow⟩
      exact ⟨p, hp, (lowPort_iff p).mp hlow⟩
    · rintro ⟨p, hp, hn⟩
      exact ⟨p, hp, (lowPort_iff p).mpr hn⟩

/-- Witness for C2 at ports 8080 (unprivileged) for host example.com. -/
theorem port_forward_elevation_witness :
    (["8080"] : List String) ≠ [] ∧
    (∀ p ∈ (["8080"] : List String), (parse_i32 p).isSome) ∧
    port_forward_cmd "/cache" true "example.com" ["8080"] =
      some { program := "ssh",
             argv := ["-oControlMaster=auto",
                      "-oControlPath=/cache/conn-example.com.sock",
                      "-oControlPersist=10m", "-N",
                      "-L", "8080:127.0.0.1:8080", "example.com"] } := by
  refine ⟨by decide, by decide, ?_⟩
  have h := (port_forward_elevation "/cache" "example.com" ["8080"]
    (by decide) (by decide)).1
  rw [h]
  decide

/-- Counterexample to claim C3 as stated: for ports [22, 8080] the
program is not the SSH client directly but sudo (22 is below 1024, so
the whole batch elevates), and no single argument -L22:127.0.0.1:22
exists in the argument vector; each forward appears as the two adjacent
arguments "-L" and "<port>:127.0.0.1:<port>". -/
theorem port_forward_no_fused_forward_arg :
    port_forward_cmd "/cache" true "example.com" ["22", "8080"] =
      some { program := "sudo",
             argv := ["ssh", "-oControlMaster=auto",
                      "-oControlPath=/cache/conn-example.com.sock",
                      "-oControlPersist=10m", "-N",
                      "-L", "22:127.0.0.1:22",
                      "-L", "8080:127.0.0.1:8080", "example.com"] } ∧
    ("sudo" : String) ≠ "ssh" ∧
    "-L22:127.0.0.1:22" ∉
      (["ssh", "-oControlMaster=auto",
        "-oControlPath=/cache/conn-example.com.sock",
        "-oControlPersist=10m", "-N", "-L", "22:127.0.0.1:22",
        "-L", "8080:127.0.0.1:8080", "example.com"] : List String) :=
  ⟨by decide, by decide, by decide⟩

/-- Claim C3 as amended: port 22 is below 1024, so for ports [22, 8080]
(and likewise [22]) the program is the elevation wrapper sudo with ssh
as its first argument; the arguments carry each forward as the
flag-value pair "-L" "<port>:127.0.0.1:<port>". -/
theorem port_forward_example_ports (cacheDir host : String) :
    port_forward_cmd cacheDir true host ["22", "8080"] =
      some { program := "sudo",
             argv := "ssh" :: (ssh_opts_list cacheDir host ++
                     ["-N", "-L", "22:127.0.0.1:22",
                      "-L", "8080:127.0.0.1:8080", host]) } ∧
    port_forward_cmd cacheDir true host ["22"] =
      some { program := "sudo",
             argv := "ssh" :: (ssh_opts_list cacheDir host ++
                     ["-N", "-L", "22:127.0.0.1:22", host]) } :=
  ⟨rfl, rfl⟩

/-- Claim C6: for every host and every TTY query value, the interactive
session runs ssh with the base options, then -t exactly when stdout is
an interactive terminal, then -q, then the host. -/
theorem interactive_session_argv (cacheDir host : String) (tty : Bool) :
    go_cmd cacheDir true tty host =
      some { program := "ssh",
             argv := ssh_opts_list cacheDir host ++
                     (if tty then ["-t"] else []) ++ ["-q"] ++ [host] } := by
  cases tty <;> rfl

/-- Claim C8: distinct host strings (the supported ones carry no path
separator) derive distinct control-socket paths. -/
theorem sock_path_injective (cacheDir h1 h2 : String)
    (hs1 : '/' ∉ h1.data) (hs2 : '/' ∉ h2.data) (hne : h1 ≠ h2) :
    sock_path cacheDir h1 ≠ sock_path cacheDir h2 := by
  intro heq
  apply hne
  have hd := congrArg String.data heq
  simp only [sock_path, cache_file_path, sock_filename, String.data_append,
    List.append_assoc] at hd
  have h3 := List.append_cancel_left hd
  have h4 := List.append_cancel_left h3
  have h5 := List.append_cancel_left h4
  exact String.ext (List.append_cancel_right h5)

/-- Witness for C8 at hosts alpha and beta. -/
theorem sock_path_injective_witness :
    '/' ∉ ("alpha" : String).data ∧ '/' ∉ ("beta" : String).data ∧
    ("alpha" : String) ≠ "beta" ∧
    sock_path "/cache" "alpha" ≠ sock_path "/cache" "beta" :=
  ⟨by decide, by decide, by decide,
   sock_path_injective "/cache" "alpha" "beta" (by decide) (by decide)
     (by decide)⟩

/-- A single unparseable port makes the whole loop panic. -/
theorem build_forwards_none (ports : List String) (p : String)
    (hmem : p ∈ ports) (hbad : parse_i32 p = none) :
    build_forwards ports = none := by
  induction ports with
  | nil => cases hmem
  | cons q rest ih =>
    rcases List.mem_cons.mp hmem with hq | hq
    · subst hq
      simp [build_forwards, hbad]
    · cases hpq : parse_i32 q with
      | none => simp [build_forwards, hpq]
      | some n => simp [build_forwards, hpq, ih hq]

/-- Claim C10: once the host resolves, a ports list containing an entry
that is not a valid i32 numeral makes port_forward abort via the unwrap
panic (modelled by none) before returning any result, whatever the
execution primitive would have done. -/
theorem port_forward_panics_on_bad_port (openRes readRes : Except Nat Unit)
    (cacheDir host : String) (placeCacheOk : Bool) (fs : HostFile)
    (ports : List String) (p : String) (exec : Exec)
    (hhost : get_host openRes readRes fs = Except.ok host)
    (hmem : p ∈ ports) (hbad : parse_i32 p = none) :
    port_forward openRes readRes cacheDir placeCacheOk fs ports exec =
      none := by
  unfold port_forward
  rw [hhost]
  simp [port_forward_cmd, build_forwards_none ports p hmem hbad]

/-- Witness for C10 at the malformed port string p22. -/
theorem port_forward_panics_on_bad_port_witness :
    get_host (Except.ok ()) (Except.ok ()) (some "h") = Except.ok "h" ∧
    "p22" ∈ (["p22"] : List String) ∧ parse_i32 "p22" = none ∧
    port_forward (Except.ok ()) (Except.ok ()) "/cache" true (some "h")
      ["p22"] (fun _ => Except.ok ()) = none :=
  ⟨rfl, by decide, by decide,
   port_forward_panics_on_bad_port (Except.ok ()) (Except.ok ()) "/cache"
     "h" true (some "h") ["p22"] "p22" (fun _ => Except.ok ())
     rfl (by decide) (by decide)⟩

/-- Counterexample to claim C4 as stated: argument construction itself
can terminate abnormally. When place_cache_file fails, ssh_opts's expect
panics (none) while building the options, before any process runs. -/
theorem construction_can_panic :
    ssh_command_with_host_cmd "/cache" false true "example.com" [] =
      none := rfl

/-- Claim C4 as amended: once the control-socket path placement succeeds
(and, for port forwarding, every port parses), building the program name
and argument vector for each operation is total, and the full operation
returns exactly the execution primitive's outcome with any failure
wrapped as ProcessError; no error value arises from construction, but
construction may panic when the socket path cannot be placed. -/
theorem construction_total_errors_process (openRes readRes : Except Nat Unit)
    (cacheDir host : String) (tty : Bool) (fs : HostFile)
    (extra : List String) (fromPath toPath : String) (ports : List String)
    (exec : Exec)
    (hhost : get_host openRes readRes fs = Except.ok host)
    (hports : ∀ p ∈ ports, (parse_i32 p).isSome) :
    (∃ cmd, ssh_command_with_host_cmd cacheDir true tty host extra =
        some cmd ∧
      ssh_command openRes readRes cacheDir true tty fs extra exec =
        some ((exec cmd).mapError Error.ProcessError)) ∧
    (∃ cmd, scp_up_cmd cacheDir true host fromPath toPath = some cmd ∧
      scp_up openRes readRes cacheDir true fs fromPath toPath exec =
        some ((exec cmd).mapError Error.ProcessError)) ∧
    (∃ cmd, scp_down_cmd cacheDir true host fromPath toPath = some cmd ∧
      scp_down openRes readRes cacheDir true fs fromPath toPath exec =
        some ((exec cmd).mapError Error.ProcessError)) ∧
    (∃ cmd, port_forward_cmd cacheDir true host ports = some cmd ∧
      port_forward openRes readRes cacheDir true fs ports exec =
        some ((exec cmd).mapError Error.ProcessError)) := by
  refine ⟨⟨_, rfl, ?_⟩, ⟨_, rfl, ?_⟩, ⟨_, rfl, ?_⟩, ?_⟩
  · unfold ssh_command ssh_command_with_host
    rw [hhost]
    rfl
  · unfold scp_up
    rw [hhost]
    rfl
  · unfold scp_down
    rw [hhost]
    rfl
  · have hpc : port_forward_cmd cacheDir true host ports =
        some { program := if ports.any lowPort then "sudo" else "ssh",
               argv := (if ports.any lowPort then ["ssh"] else []) ++
                       ssh_opts_list cacheDir host ++ ["-N"] ++
                       fwd_specs ports ++ [host] } := by
      simp [port_forward_cmd, build_forwards_eq ports hports, ssh_opts,
        place_cache_file, ssh_opts_list, sock_path]
    refine ⟨_, hpc, ?_⟩
    unfold port_forward
    rw [hhost]
    simp [hpc]

/-- Witness for C4's amended theorem with host h and port 8080. -/
theorem construction_total_errors_process_witness :
    (∃ cmd, ssh_command_with_host_cmd "/cache" true true "h" [] =
        some cmd ∧
      ssh_command (Except.ok ()) (Except.ok ()) "/cache" true true
        (some "h") [] (fun _ => Except.ok ()) = some (Except.ok ())) ∧
    (∃ cmd, scp_up_cmd "/cache" true "h" "/a" "/b" = some cmd ∧
      scp_up (Except.ok ()) (Except.ok ()) "/cache" true (some "h")
        "/a" "/b" (fun _ => Except.ok ()) = some (Except.ok ())) ∧
    (∃ cmd, scp_down_cmd "/cache" true "h" "/a" "/b" = some cmd ∧
      scp_down (Except.ok ()) (Except.ok ()) "/cache" true (some "h")
        "/a" "/b" (fun _ => Except.ok ()) = some (Except.ok ())) ∧
    (∃ cmd, port_forward_cmd "/cache" true "h" ["8080"] = some cmd ∧
      port_forward (Except.ok ()) (Except.ok ()) "/cache" true (some "h")
        ["8080"] (fun _ => Except.ok ()) = some (Except.ok ())) :=
  construction_total_errors_process (Except.ok ()) (Except.ok ())
    "/cache" "h" true (some "h") [] "/a" "/b" ["8080"]
    (fun _ => Except.ok ()) rfl (by decide)

/-- Counterexample to claim C5 as stated: for the elevated port-forward
invocation (port 22), the final argument vector begins with the ssh
re-invocation argument, so the three base options are not a leading
segment of it. -/
theorem base_options_not_argv_start_when_elevated :
    ∃ cmd, port_forward_cmd "/cache" true "h" ["22"] = some cmd ∧
      ¬ ∃ rest, cmd.argv = ssh_opts_list "/cache" "h" ++ rest := by
  refine ⟨_, rfl, ?_⟩
  rintro ⟨rest, hr⟩
  simp [ssh_opts_list, sock_path, cache_file_path, sock_filename] at hr

/-- Claim C5 as amended: ssh_opts yields exactly the three option
strings in fixed order (multiplexing auto, per-host socket path,
10-minute persist), and that vector is a strict leading segment of the
final argument vector of the interactive session and remote command
(any closure-appended suffix), upload, download, and non-elevated port
forward; for the elevated port forward it is a strict leading segment
of the arguments after the initial ssh re-invocation argument. -/
theorem base_options_structure (cacheDir host : String) (tty : Bool)
    (extra : List String) (fromPath toPath : String)
    (ports lowports : List String)
    (hparse : ∀ p ∈ ports, (parse_i32 p).isSome)
    (hnolow : ports.any lowPort = false)
    (hparse2 : ∀ p ∈ lowports, (parse_i32 p).isSome)
    (hlow : lowports.any lowPort = true) :
    ssh_opts cacheDir true host = some (ssh_opts_list cacheDir host) ∧
    (∃ cmd rest, ssh_command_with_host_cmd cacheDir true tty host extra =
        some cmd ∧ cmd.argv = ssh_opts_list cacheDir host ++ rest ∧
        rest ≠ []) ∧
    (∃ cmd rest, scp_up_cmd cacheDir true host fromPath toPath =
        some cmd ∧ cmd.argv = ssh_opts_list cacheDir host ++ rest ∧
        rest ≠ []) ∧
    (∃ cmd rest, scp_down_cmd cacheDir true host fromPath toPath =
        some cmd ∧ cmd.argv = ssh_opts_list cacheDir host ++ rest ∧
        rest ≠ []) ∧
    (∃ cmd rest, port_forward_cmd cacheDir true host ports = some cmd ∧
        cmd.argv = ssh_opts_list cacheDir host ++ rest ∧ rest ≠ []) ∧
    (∃ cmd rest, port_forward_cmd cacheDir true host lowports =
        some cmd ∧
        cmd.argv = "ssh" :: (ssh_opts_list cacheDir host ++ rest) ∧
        rest ≠ []) := by
  refine ⟨rfl, ?_, ?_, ?_, ?_, ?_⟩
  · refine ⟨_, (if tty then ["-t"] else []) ++ (["-q"] ++ ([host] ++ extra)),
      rfl, ?_, ?_⟩
    · simp [ssh_opts_list, sock_path, cache_file_path]
    · cases tty <;> simp
  · exact ⟨_, [fromPath, host ++ ":" ++ toPath], rfl, rfl, by simp⟩
  · exact ⟨_, [host ++ ":" ++ fromPath, toPath], rfl, rfl, by simp⟩
  · have hpc : port_forward_cmd cacheDir true host ports =
        some { program := "ssh",
               argv := ssh_opts_list cacheDir host ++ ["-N"] ++
                       fwd_specs ports ++ [host] } := by
      simp [port_forward_cmd, build_forwards_eq ports hparse, hnolow,
        ssh_opts, place_cache_file, ssh_opts_list, sock_path]
    refine ⟨_, ["-N"] ++ (fwd_specs ports ++ [host]), hpc, ?_, by simp⟩
    simp
  · have hpc : port_forward_cmd cacheDir true host lowports =
        some { program := "sudo",
               argv := ["ssh"] ++ ssh_opts_list cacheDir host ++ ["-N"] ++
                       fwd_specs lowports ++ [host] } := by
      simp [port_forward_cmd, build_forwards_eq lowports hparse2, hlow,
        ssh_opts, place_cache_file, ssh_opts_list, sock_path]
    refine ⟨_, ["-N"] ++ (fwd_specs lowports ++ [host]), hpc, ?_, by simp⟩
    simp

/-- Witness for C5's amended theorem: port 8080 is unprivileged, port 22
is privileged, and ssh_opts yields the three fixed options. -/
theorem base_options_structure_witness :
    ssh_opts "/cache" true "h" = some (ssh_opts_list "/cache" "h") :=
  (base_options_structure "/cache" "h" true ["ls"] "/a" "/b" ["8080"]
    ["22"] (by decide) (by decide) (by decide) (by decide)).1
